import Mathlib

/-!
Verification of the core logic of `jiraclient.py` (a Python 2 Jira REST CLI)
against its natural-language specification.

The development shallowly embeds the relevant parts of the source:

* `Issue.__init__` and its sentinel field values (`Issue_init`),
* `SearchableDict.find_key` / `SearchableDict.find_value`,
* the `Jiraclient.maps` dictionary of lookup tables, modelled with an explicit
  heap of tables plus a name-to-reference map so that Python object aliasing
  (`self.maps['fixversions'] = self.maps['versions']`) is expressible,
* `Jiraclient.update_issue_obj` (the per-field merge rules),
* the field-pruning loop at the top of `Jiraclient.create_issue`,
* `time_is_valid` / the `time_rx` regex `^\d+[mhdw]$` with Python `re`
  semantics (the `$` anchor also matches just before one trailing newline),
* `Jiraclient.log_work` (worklog request shapes),
* `Jiraclient.check_auth` / `get_session` / the `Unauthorized` branch of
  `call_api` (session cache lifecycle), including a real `base64.b64encode`.

Exceptions are modelled with `Except` (an `error` value is an uncaught Python
exception or a fatal `sys.exit`), and the `None` returned by the early
`return` in `update_issue_obj` is modelled with `Option`.
-/

/-- JSON-ish element of a list-valued issue field: either a plain string
(`labels` entries) or a flat dict with string-or-null values (entries of
`versions`, `fixVersions`, `components`). -/
inductive JElem where
  | es (s : String)
  | ed (d : List (String × Option String))
deriving DecidableEq, Repr

/-- Value of one attribute of the Python `Issue` object: a plain string, a
flat dict with string-or-null values (`project`, `assignee`, `timetracking`,
...), or a list (`labels`, `versions`, `fixVersions`, `components`). -/
inductive FieldVal where
  | str (s : String)
  | obj (d : List (String × Option String))
  | arr (l : List JElem)
deriving DecidableEq, Repr

/-- The `__dict__` of an `Issue` instance: attribute name to value.  Keys are
unique (Python object attribute dictionary). -/
abbrev IssueDict := List (String × FieldVal)

/-- Association-list lookup with unique keys; models Python `d[k]` /
`getattr` returning `none` for a missing key. -/
def alookup {α β : Type} [DecidableEq α] : List (α × β) → α → Option β
  | [], _ => none
  | (k', v) :: rest, k => if k' = k then some v else alookup rest k

/-- Association-list store: replace the value of an existing key, or append
the binding; models Python `d[k] = v` / `setattr`. -/
def aset {α β : Type} [DecidableEq α] : List (α × β) → α → β → List (α × β)
  | [], k, v => [(k, v)]
  | (k', v') :: rest, k, v =>
      if k' = k then (k, v) :: rest else (k', v') :: aset rest k v

/-- Initial field values set by `Issue.__init__` (jiraclient.py lines 77-90).
The empty string, `id: null` objects, `name: null` for assignee, the empty
`timetracking` object, the empty `labels` list and the `[id: null]` sentinel
lists are all taken verbatim from the source. -/
def Issue_init : IssueDict :=
  [("summary", .str ""),
   ("environment", .str ""),
   ("description", .str ""),
   ("duedate", .str ""),
   ("project", .obj [("id", none)]),
   ("issuetype", .obj [("id", none)]),
   ("assignee", .obj [("name", none)]),
   ("priority", .obj [("id", none)]),
   ("timetracking", .obj []),
   ("labels", .arr []),
   ("versions", .arr [.ed [("id", none)]]),
   ("fixVersions", .arr [.ed [("id", none)]]),
   ("components", .arr [.ed [("id", none)]])]

/-- Lowercasing of one byte as Python 2 `str.lower()` does it in the C
locale: ASCII `A`-`Z` map to `a`-`z`, everything else is unchanged. -/
def pyLowerChar (c : Char) : Char :=
  if 65 ≤ c.toNat ∧ c.toNat ≤ 90 then Char.ofNat (c.toNat + 32) else c

/-- Python 2 `str.lower()` over the whole (ASCII byte) string. -/
def py_lower (s : String) : String :=
  String.mk (s.data.map pyLowerChar)

/-- A `SearchableDict`: a Python dict from numeric id to lowercase label,
with unique keys. -/
abbrev SearchableDict := List (Nat × String)

/-- `SearchableDict.find_key(val)`: `[k for k, v in self.iteritems() if v == val].pop()`.
`pop()` takes the last element of the match list and raises `IndexError` on
an empty list; `none` models that raised exception. -/
def find_key (d : SearchableDict) (val : String) : Option Nat :=
  ((d.filter (fun p => decide (p.2 = val))).getLast?).map Prod.fst

/-- `SearchableDict.find_value(key)`: plain `self[key]`; `none` models a
raised `KeyError`. -/
def find_value (d : SearchableDict) (key : Nat) : Option String :=
  alookup d key

/-- The `self.maps` dictionary of `Jiraclient`.  Python binds each category
name to a (mutable, aliasable) `SearchableDict` object; we model the objects
as slots of a heap and the dictionary as a map from name to slot index, so
that `self.maps['fixversions'] = self.maps['versions']` (aliasing, not
copying) is faithfully representable. -/
structure MapsState where
  heap : List SearchableDict
  refs : List (String × Nat)
deriving DecidableEq, Repr

/-- Replace the element at an index of a list, leaving other indices alone. -/
def listModify {α : Type} (f : α → α) : Nat → List α → List α
  | _, [] => []
  | 0, x :: xs => f x :: xs
  | n + 1, x :: xs => x :: listModify f n xs

/-- `Jiraclient.__init__`: seven distinct empty `SearchableDict` objects,
one per category (jiraclient.py lines 124-132). -/
def MapsState.init : MapsState :=
  { heap := [[], [], [], [], [], [], []],
    refs := [("project", 0), ("priority", 1), ("issuetype", 2), ("versions", 3),
             ("fixversions", 4), ("components", 5), ("resolutions", 6)] }

/-- Dereference a heap slot (missing slots read as an empty table; unreachable
for states built by the embedded operations). -/
def tableAt (st : MapsState) (r : Nat) : SearchableDict :=
  (st.heap.get? r).getD []

/-- The table currently bound to a category name, if any; models
`self.maps[name]` guarded by `self.maps.has_key(name)`. -/
def lookupMap (st : MapsState) (name : String) : Option SearchableDict :=
  match alookup st.refs name with
  | some r => some (tableAt st r)
  | none => none

/-- Mutate the table object bound to a category name in place (a Python
`self.maps[name][id] = label` loop acts through the reference). -/
def updateTable (st : MapsState) (name : String) (f : SearchableDict → SearchableDict) :
    MapsState :=
  match alookup st.refs name with
  | some r => { heap := listModify f r st.heap, refs := st.refs }
  | none => st

/-- The population loop body shared by the `get_*` fetchers:
`self.maps[cat][int(item['id'])] = str(item['name'].lower())` over response
items. -/
def populate (tbl : SearchableDict) (data : List (Nat × String)) : SearchableDict :=
  data.foldl (fun t p => aset t p.1 (py_lower p.2)) tbl

/-- `Jiraclient.get_project_versions` (jiraclient.py lines 542-547): populate
the `versions` table from the response, then rebind `fixversions` to the very
same table object (`self.maps['fixversions'] = self.maps['versions']`). -/
def get_project_versions (data : List (Nat × String)) (st : MapsState) : MapsState :=
  let st1 := updateTable st "versions" (fun t => populate t data)
  match alookup st1.refs "versions" with
  | some r => { heap := st1.heap, refs := aset st1.refs "fixversions" r }
  | none => st1

/-- `Jiraclient.get_project_components` (jiraclient.py lines 549-553):
populate the `components` table from the response. -/
def get_project_components (data : List (Nat × String)) (st : MapsState) : MapsState :=
  updateTable st "components" (fun t => populate t data)

/-- Result of the `attribute_id` computation in `update_issue_obj`: an id
found in a lookup table (`attribute_map` was set), or the lowercased raw
value passed through (`no map found` branch). -/
inductive ResId where
  | byId (n : Nat)
  | passthrough (s : String)
deriving DecidableEq, Repr

/-- `str(attribute_id)` as used in the list branch of `update_issue_obj`. -/
def residStr : ResId → String
  | .byId n => toString n
  | .passthrough s => s

/-- The resolution prelude of `update_issue_obj` (jiraclient.py lines
684-694).  `Except.error` models the uncaught `IndexError` that
`find_key` raises via `[].pop()` when no label matches; `Except.ok none`
models the early `return` (which returns Python `None`) taken when the found
id is falsy. -/
def resolve_attribute (st : MapsState) (key value : String) :
    Except String (Option ResId) :=
  match lookupMap st (py_lower key) with
  | some tbl =>
      match find_key tbl (py_lower value) with
      | none => .error "IndexError: pop from empty list"
      | some aid => if aid = 0 then .ok none else .ok (some (.byId aid))
  | none => .ok (some (.passthrough (py_lower value)))

/-- The type-directed assignment part of `update_issue_obj` (jiraclient.py
lines 696-722): plain strings are overwritten with `str(value)`; lists append
(the `labels` list appends the raw string, other lists drop the first
`id: null` sentinel if present and append `id: str(attribute_id)`); dicts
write `str(attribute_id)` or `str(value)` into an `id` member and `str(value)`
into a `name` member. -/
def update_attr (issue : IssueDict) (key value : String) (attr : FieldVal)
    (resid : ResId) : IssueDict :=
  match attr with
  | .str _ => aset issue key (.str value)
  | .arr l =>
      if key = "labels" then
        aset issue key (.arr (l ++ [.es value]))
      else
        aset issue key (.arr (l.erase (.ed [("id", none)]) ++ [.ed [("id", some (residStr resid))]]))
  | .obj d =>
      let d1 :=
        if (alookup d "id").isSome then
          aset d "id" (some (match resid with
            | .byId n => toString n
            | .passthrough _ => value))
        else d
      let d2 := if (alookup d1 "name").isSome then aset d1 "name" (some value) else d1
      aset issue key (.obj d2)

/-- `Jiraclient.update_issue_obj` (jiraclient.py lines 670-722).
`Except.error` is an uncaught exception, `Except.ok none` is the early
`return` that hands `None` back to the caller, `Except.ok (some i)` is the
normal `return issue`. -/
def update_issue_obj (st : MapsState) (issue : IssueDict) (key value : String) :
    Except String (Option IssueDict) :=
  match alookup issue key with
  | none => .error "AttributeError"
  | some attr =>
      match resolve_attribute st key value with
      | .error e => .error e
      | .ok none => .ok none
      | .ok (some resid) => .ok (some (update_attr issue key value attr resid))

/-- Python truthiness of a field value: the empty string, empty dict and
empty list are falsy. -/
def isFalsy : FieldVal → Bool
  | .str s => s.isEmpty
  | .obj d => d.isEmpty
  | .arr l => l.isEmpty

/-- The sentinel object `id: null`. -/
def obj_id_null : FieldVal := .obj [("id", none)]

/-- The sentinel list `[id: null]`. -/
def arr_id_null : FieldVal := .arr [.ed [("id", none)]]

/-- The pruning loop at the top of `Jiraclient.create_issue` (jiraclient.py
lines 598-604): pop every field that is falsy, equals the `id: null` dict,
or equals the `[id: null]` list.  The three `if` conditions are mutually
exclusive (the two sentinel values are truthy), so the iterate-and-pop loop
over the `items()` snapshot is a plain filter. -/
def create_issue_fields (issue : IssueDict) : IssueDict :=
  issue.filter (fun kv =>
    !(isFalsy kv.2 || decide (kv.2 = obj_id_null) || decide (kv.2 = arr_id_null)))

/-- Sentinel forms named by the pruning invariant: empty string, `id: null`,
`[id: null]`. -/
def is_sentinel_form (v : FieldVal) : Bool :=
  decide (v = .str "") || decide (v = obj_id_null) || decide (v = arr_id_null)

/-- Membership test of the `[mhdw]` character class of `time_rx`. -/
def isTimeUnit (c : Char) : Bool :=
  c = 'm' || c = 'h' || c = 'd' || c = 'w'

/-- Positions accepted by the `$` anchor of Python `re` without `MULTILINE`:
the end of the string, or just before a single newline that ends the
string. -/
def dollarOk : List Char → Bool
  | [] => true
  | [c] => c = '\n'
  | _ :: _ :: _ => false

/-- Continuation of the `time_rx` match after at least one digit has been
consumed: more digits, or one `[mhdw]` unit followed by a `$` position.
Because the digit and unit character classes are disjoint, the backtracking
of the greedy `\d+` never changes the outcome and this deterministic scan is
exact. -/
def timeRxTail : List Char → Bool
  | [] => false
  | c :: cs => if c.isDigit then timeRxTail cs else isTimeUnit c && dollarOk cs

/-- `time_rx.search(value)` for `time_rx = re.compile('^\d+[mhdw]$')`: the
leading `^` pins the only candidate match position to the start of the
string, so `search` and `match` coincide. -/
def time_rx_search (s : String) : Bool :=
  match s.data with
  | [] => false
  | c :: cs => c.isDigit && timeRxTail cs

/-- `time_is_valid` (jiraclient.py lines 43-47): true exactly when
`time_rx.search` finds a match. -/
def time_is_valid (s : String) : Bool :=
  time_rx_search s

/-- Continuation of a strict (formal-language) match of `\d+[mhdw]$` after
one digit, where `$` means the exact end of the string. -/
def timeRxTailExact : List Char → Bool
  | [] => false
  | c :: cs => if c.isDigit then timeRxTailExact cs else isTimeUnit c && cs.isEmpty

/-- Modelled from the spec: a string matching the regular expression
`^\d+[mhdw]$` read as a plain regular language (an integer magnitude, one of
`m`, `h`, `d`, `w`, nothing else).  This is the spec-side reading of the
duration grammar, used to compare against the source's `time_is_valid`. -/
def time_rx_exact (s : String) : Bool :=
  match s.data with
  | [] => false
  | c :: cs => c.isDigit && timeRxTailExact cs

/-- The amended duration grammar: a strict `^\d+[mhdw]$` match, or such a
match followed by one trailing newline, which Python's `$` anchor also
accepts. -/
def time_rx_amended_spec (s : String) : Bool :=
  time_rx_exact s ||
    (decide (s.data.getLast? = some '\n') && time_rx_exact (String.mk s.data.dropLast))

/-- Outcome of `Jiraclient.log_work`: an early return after a local warning
(no network call made, no fatal exit), or a single `call_api('post', uri,
payload)` with the given JSON body (`none` values are JSON `null`). -/
inductive WorkResult where
  | skipped (warning : String)
  | sent (uri : String) (body : List (String × Option String))
deriving DecidableEq, Repr

/-- `Jiraclient.log_work` (jiraclient.py lines 762-803).  Arguments are the
option values it reads (`worklog` comment, `timespent`, `remaining`) plus the
issue id and the `dt_today` timestamp string taken from the clock.  Both time
strings are validated against `time_rx` before any request is built; then one
of four request shapes is chosen by which of spent/remaining are present. -/
def log_work (issueID : String) (comment timespent remaining : Option String)
    (dt_today : String) : WorkResult :=
  let baseuri := "rest/api/2/issue/" ++ issueID ++ "/worklog"
  match timespent with
  | some s =>
      if time_is_valid s then
        match remaining with
        | some r =>
            if time_is_valid r then
              .sent (baseuri ++ "?adjustEstimate=new&newEstimate=" ++ r)
                [("startDate", some dt_today), ("timeSpent", some s), ("comment", comment)]
            else
              .skipped ("Time remaining has dubious format: " ++ r ++ ": no action taken")
        | none =>
            .sent (baseuri ++ "?adjustEstimate=auto")
              [("startDate", some dt_today), ("timeSpent", some s), ("comment", comment)]
      else
        .skipped ("Time spent has dubious format: " ++ s ++ ": no action taken")
  | none =>
      match remaining with
      | some r =>
          if time_is_valid r then
            .sent (baseuri ++ "?adjustEstimate=new&newEstimate=" ++ r)
              [("startDate", some dt_today), ("comment", comment)]
          else
            .skipped ("Time remaining has dubious format: " ++ r ++ ": no action taken")
      | none => .sent baseuri [("startDate", some dt_today), ("comment", comment)]

/-- The base64 alphabet used by `base64.b64encode`. -/
def b64chars : String :=
  "ABCDEFGHIJKLMNOPQRSTUVWXYZabcdefghijklmnopqrstuvwxyz0123456789+/"

/-- Character of the base64 alphabet at a 6-bit index. -/
def b64char (n : Nat) : Char :=
  b64chars.data.getD n 'A'

/-- Standard base64 of a byte list, with `=` padding, as produced by
`base64.b64encode`. -/
def b64encodeBytes : List Nat → List Char
  | [] => []
  | [a] => [b64char (a / 4 % 64), b64char (a % 4 * 16), '=', '=']
  | [a, b] => [b64char (a / 4 % 64), b64char (a % 4 * 16 + b / 16 % 16),
               b64char (b % 16 * 4), '=']
  | a :: b :: c :: rest =>
      [b64char (a / 4 % 64), b64char (a % 4 * 16 + b / 16 % 16),
       b64char (b % 16 * 4 + c / 64 % 4), b64char (c % 64)] ++ b64encodeBytes rest

/-- `base64.b64encode` on a Python 2 byte string; the CLI inputs are ASCII,
for which the code points are the bytes. -/
def b64encode (s : String) : String :=
  String.mk (b64encodeBytes (s.data.map Char.toNat))

/-- The on-disk session cache file: its permission bits (`S_IMODE`) and its
raw contents. -/
structure SessFile where
  mode : Nat
  contents : String
deriving DecidableEq, Repr

/-- Outcome of `Jiraclient.get_session`: success, or a fatal process exit
carrying the message and the final state of the session file. -/
inductive SessionOutcome where
  | ok (fs : Option SessFile)
  | fatalExit (msg : String) (fs : Option SessFile)
deriving DecidableEq, Repr

/-- `Jiraclient.get_session` (jiraclient.py lines 629-636) together with the
`Unauthorized` branch of `call_api` (lines 505-513): validate the current
token with `GET rest/auth/latest/session`.  On rejection `call_api` unlinks
the session file and calls `fatal("Login failed")`; the bare `except:` in
`get_session` catches the resulting `SystemExit`, finds the file already
gone, and issues the same fatal exit again.  `validate` stands for the remote
service's acceptance of the `Authorization: Basic <token>` header. -/
def get_session (validate : String → Bool) (token : String)
    (fs : Option SessFile) : SessionOutcome :=
  if validate token then .ok fs else .fatalExit "Login failed" none

/-- `Jiraclient.read_password` (jiraclient.py lines 638-642) as a value: the
effective password is the `--password` option when it is a non-empty string,
otherwise the interactively prompted one. -/
def effective_password (password : Option String) (prompted : String) : String :=
  match password with
  | some p => if p.isEmpty then prompted else p
  | none => prompted

/-- The session-file permission filter at the top of `check_auth`
(jiraclient.py lines 645-649): a file whose `S_IMODE` is not `0600` is
unlinked (after an error log) and treated as absent. -/
def filtered_file (fs0 : Option SessFile) : Option SessFile :=
  match fs0 with
  | some f => if f.mode = 0o600 then some f else none
  | none => none

/-- The token selection of `check_auth` (jiraclient.py lines 651-661): derive
`base64(user:password)` when no usable session file remains, else read the
cached file contents verbatim. -/
def session_token (user : String) (password : Option String) (prompted : String)
    (fs1 : Option SessFile) : String :=
  match fs1 with
  | none => b64encode (user ++ ":" ++ effective_password password prompted)
  | some f => f.contents

deriving instance DecidableEq for Except

/-- Result of `Jiraclient.check_auth`: the process outcome (`ok token` or a
fatal exit message), the final session file, and the list of tokens sent to
the session-validation endpoint, in order. -/
structure AuthResult where
  outcome : Except String String
  file : Option SessFile
  attempts : List String
deriving DecidableEq, Repr

/-- `Jiraclient.check_auth` (jiraclient.py lines 644-668): discard a
wrong-mode session file, pick the token (cached contents or fresh
`base64(user:password)`), validate it once via `get_session`, and on success
rewrite the session file with the token and mode `0600`. -/
def check_auth (validate : String → Bool) (user : String)
    (password : Option String) (prompted : String)
    (fs0 : Option SessFile) : AuthResult :=
  let fs1 := filtered_file fs0
  let token := session_token user password prompted fs1
  match get_session validate token fs1 with
  | .ok _ =>
      { outcome := .ok token,
        file := some { mode := 0o600, contents := token },
        attempts := [token] }
  | .fatalExit msg fs' =>
      { outcome := .error msg, file := fs', attempts := [token] }

/-- C1: for every Issue record passed to `create_issue`, any field whose
value still equals one of the initial sentinel forms (the empty string,
`id: null`, `[id: null]`) is dropped by the pruning loop, so the serialized
`fields` object contains no such placeholder value. -/
theorem C1_sentinels_pruned (issue : IssueDict) (k : String) (v : FieldVal)
    (h : (k, v) ∈ create_issue_fields issue) : is_sentinel_form v = false := by
  have hp := (List.mem_filter.mp h).2
  simp only [Bool.not_eq_eq_eq_not, Bool.not_true, Bool.or_eq_false_iff,
    decide_eq_false_iff_not] at hp
  obtain ⟨⟨hfalsy, hobj⟩, harr⟩ := hp
  simp only [is_sentinel_form, Bool.or_eq_false_iff, decide_eq_false_iff_not]
  refine ⟨⟨?_, hobj⟩, harr⟩
  rintro rfl
  exact absurd hfalsy (by decide)

/-- C1 witness: a record with a non-empty summary keeps it, and the kept
value is not a sentinel. -/
theorem C1_witness : is_sentinel_form (FieldVal.str "hello") = false :=
  C1_sentinels_pruned [("summary", .str "hello")] "summary" (.str "hello") (by decide)

/-- C2: contrary to the silent-skip claim, a lookup miss raises.  With the
`components` table populated only with the label `network`, setting
`components` to `bogus` makes `SearchableDict.find_key` evaluate `[].pop()`,
which raises an uncaught `IndexError` instead of logging at debug level and
skipping the field (the `if not attribute_id` skip branch is unreachable on a
miss). -/
theorem C2_lookup_miss_raises :
    update_issue_obj (get_project_components [(10001, "network")] MapsState.init)
      Issue_init "components" "bogus" = .error "IndexError: pop from empty list" := rfl

/-- C9 counterexample: setting the `labels` field with the raw value
`URGENT` appends the raw string `URGENT`, not its lower-casing `urgent`, so
the claim that the appended element is the lower-cased input is false. -/
theorem C9_counterexample :
    (match update_issue_obj MapsState.init Issue_init "labels" "URGENT" with
     | .ok (some i) => alookup i "labels"
     | _ => none) = some (.arr [.es "URGENT"]) ∧
    JElem.es "URGENT" ≠ JElem.es (py_lower "URGENT") := ⟨rfl, by decide⟩

/-- C9 amended: every set operation on the `labels` field appends the raw
input string unchanged (no lower-casing) directly to the list, with no
lookup-table resolution (no category named `labels` is bound in the maps). -/
theorem C9_labels_append_raw (st : MapsState) (issue : IssueDict) (value : String)
    (l : List JElem)
    (hmap : alookup st.refs "labels" = none)
    (hattr : alookup issue "labels" = some (.arr l)) :
    update_issue_obj st issue "labels" value
      = .ok (some (aset issue "labels" (.arr (l ++ [.es value])))) := by
  have htl : py_lower "labels" = "labels" := by decide
  simp [update_issue_obj, resolve_attribute, lookupMap, htl, hmap, hattr, update_attr]

/-- C9 witness: appending `URGENT` to the fresh empty `labels` list yields
the one-element list holding the raw string. -/
theorem C9_witness :
    update_issue_obj MapsState.init Issue_init "labels" "URGENT"
      = .ok (some (aset Issue_init "labels" (.arr [.es "URGENT"]))) :=
  C9_labels_append_raw MapsState.init Issue_init "URGENT" [] rfl rfl

/-- C7: on a reference-list field other than `labels`, a set operation whose
value resolves through the field's lookup table removes the `id: null`
sentinel entry if still present and appends `id: <resolved>`; and concretely,
two successive sets resolving to 10001 then 10002 on the untouched
`components` field of a fresh record finalize to exactly the two-element list
in order with no leftover sentinel. -/
theorem C7_reference_list_append (st : MapsState) (issue : IssueDict)
    (key value : String) (tbl : SearchableDict) (aid : Nat) (l : List JElem)
    (hmap : lookupMap st (py_lower key) = some tbl)
    (hfind : find_key tbl (py_lower value) = some aid)
    (haid : aid ≠ 0)
    (hattr : alookup issue key = some (.arr l))
    (hlab : key ≠ "labels") :
    update_issue_obj st issue key value
      = .ok (some (aset issue key
          (.arr (l.erase (.ed [("id", none)]) ++ [.ed [("id", some (toString aid))]])))) ∧
    (match update_issue_obj
        (get_project_components [(10001, "network"), (10002, "storage")] MapsState.init)
        Issue_init "components" "network" with
     | .ok (some i1) =>
        match update_issue_obj
            (get_project_components [(10001, "network"), (10002, "storage")] MapsState.init)
            i1 "components" "storage" with
        | .ok (some i2) => alookup (create_issue_fields i2) "components"
        | _ => none
     | _ => none)
      = some (.arr [.ed [("id", some "10001")], .ed [("id", some "10002")]]) := by
  constructor
  · simp [update_issue_obj, resolve_attribute, hmap, hfind, haid, hattr, update_attr, hlab,
      residStr]
  · rfl

/-- C7 witness: the first of the two concrete `components` sets, resolved to
id 10001 through the populated table. -/
theorem C7_witness :
    update_issue_obj
        (get_project_components [(10001, "network"), (10002, "storage")] MapsState.init)
        Issue_init "components" "network"
      = .ok (some (aset Issue_init "components"
          (.arr ([JElem.ed [("id", none)]].erase (.ed [("id", none)])
            ++ [.ed [("id", some (toString 10001))]])))) :=
  (C7_reference_list_append
    (get_project_components [(10001, "network"), (10002, "storage")] MapsState.init)
    Issue_init "components" "network"
    [(10001, "network"), (10002, "storage")] 10001 [JElem.ed [("id", none)]]
    rfl rfl (by decide) rfl (by decide)).1

/-- C10: after `get_project_versions` runs on a fresh client, the
`fixversions` binding is the very same table object (same heap reference) as
`versions`: every label resolves identically through either name, and a later
in-place change to the table reached through either name is visible through
the other. -/
theorem C10_fixversions_aliases_versions (data : List (Nat × String)) :
    alookup (get_project_versions data MapsState.init).refs "fixversions"
      = alookup (get_project_versions data MapsState.init).refs "versions" ∧
    lookupMap (get_project_versions data MapsState.init) "fixversions"
      = lookupMap (get_project_versions data MapsState.init) "versions" ∧
    (∀ v : String,
      (lookupMap (get_project_versions data MapsState.init) "fixversions").map
          (fun t => find_key t v)
        = (lookupMap (get_project_versions data MapsState.init) "versions").map
          (fun t => find_key t v)) ∧
    (∀ f : SearchableDict → SearchableDict,
      lookupMap (updateTable (get_project_versions data MapsState.init) "versions" f)
          "fixversions"
        = lookupMap (updateTable (get_project_versions data MapsState.init) "versions" f)
          "versions") ∧
    (∀ f : SearchableDict → SearchableDict,
      lookupMap (updateTable (get_project_versions data MapsState.init) "fixversions" f)
          "versions"
        = lookupMap (updateTable (get_project_versions data MapsState.init) "fixversions" f)
          "fixversions") :=
  ⟨rfl, rfl, fun _ => rfl, fun _ => rfl, fun _ => rfl⟩

/-- Lookup-by-key in a table with pairwise distinct keys finds the stored
value of any member entry. -/
theorem find_value_of_mem (tbl : SearchableDict) (id : Nat) (lab : String)
    (hkeys : (tbl.map Prod.fst).Nodup) (hmem : (id, lab) ∈ tbl) :
    find_value tbl id = some lab := by
  induction tbl with
  | nil => simp at hmem
  | cons p rest ih =>
    obtain ⟨k, v⟩ := p
    simp only [List.map_cons, List.nodup_cons] at hkeys
    rcases List.mem_cons.mp hmem with heq | hmem'
    · obtain ⟨rfl, rfl⟩ := Prod.mk.injEq .. ▸ heq
      simp [find_value, alookup]
    · have hk : k ≠ id := by
        rintro rfl
        exact hkeys.1 (List.mem_map_of_mem Prod.fst hmem')
      simpa [find_value, alookup, hk] using ih hkeys.2 hmem'

/-- Reverse lookup in a table with pairwise distinct labels finds the key of
any member entry. -/
theorem find_key_of_mem (tbl : SearchableDict) (id : Nat) (lab : String)
    (hvals : (tbl.map Prod.snd).Nodup) (hmem : (id, lab) ∈ tbl) :
    find_key tbl lab = some id := by
  induction tbl with
  | nil => simp at hmem
  | cons p rest ih =>
    obtain ⟨k, v⟩ := p
    simp only [List.map_cons, List.nodup_cons] at hvals
    rcases List.mem_cons.mp hmem with heq | hmem'
    · obtain ⟨rfl, rfl⟩ := Prod.mk.injEq .. ▸ heq
      have hrest : rest.filter (fun p => decide (p.2 = lab)) = [] := by
        refine List.filter_eq_nil_iff.mpr (fun a ha => ?_)
        simp only [decide_eq_true_eq]
        rintro rfl
        exact hvals.1 (List.mem_map_of_mem Prod.snd ha)
      simp [find_key, List.filter_cons, hrest]
    · have hne : v ≠ lab := by
        rintro rfl
        exact hvals.1 (List.mem_map_of_mem Prod.snd hmem')
      simpa [find_key, List.filter_cons, hne] using ih hvals.2 hmem'

/-- C8: in a populated lookup table whose labels are unique (keys are unique
because the table is a Python dict), looking up the id of the label obtained
from an id round-trips: `find_key (find_value id) = id`. -/
theorem C8_roundtrip (tbl : SearchableDict) (id : Nat) (lab : String)
    (hkeys : (tbl.map Prod.fst).Nodup) (hvals : (tbl.map Prod.snd).Nodup)
    (hmem : (id, lab) ∈ tbl) :
    (find_value tbl id).bind (fun l2 => find_key tbl l2) = some id := by
  rw [find_value_of_mem tbl id lab hkeys hmem]
  simpa using find_key_of_mem tbl id lab hvals hmem

/-- C8 witness: the round-trip at id 10001 of a concrete two-entry table. -/
theorem C8_witness :
    (find_value [(10001, "network"), (10002, "storage")] 10001).bind
      (fun l2 => find_key [(10001, "network"), (10002, "storage")] l2) = some 10001 :=
  C8_roundtrip [(10001, "network"), (10002, "storage")] 10001 "network"
    (by decide) (by decide) (by decide)

/-- C3: when the remote service rejects the credential during the session
validation call, `check_auth` ends with the session cache file deleted and a
fatal exit carrying exactly the message `Login failed`, and the credential is
sent to the validation endpoint exactly once (never retried). -/
theorem C3_reject_deletes_cache_and_exits (validate : String → Bool) (user : String)
    (password : Option String) (prompted : String) (fs0 : Option SessFile)
    (hrej : validate (session_token user password prompted (filtered_file fs0)) = false) :
    check_auth validate user password prompted fs0
      = { outcome := .error "Login failed", file := none,
          attempts := [session_token user password prompted (filtered_file fs0)] } := by
  simp [check_auth, get_session, hrej]

/-- C3 witness: a rejecting service on a cached mode-0600 session file. -/
theorem C3_witness :
    check_auth (fun _ => false) "u" (some "p") "" (some { mode := 384, contents := "tok" })
      = { outcome := .error "Login failed", file := none,
          attempts := [session_token "u" (some "p") ""
            (filtered_file (some { mode := 384, contents := "tok" }))] } :=
  C3_reject_deletes_cache_and_exits (fun _ => false) "u" (some "p") ""
    (some { mode := 384, contents := "tok" }) rfl

/-- C4: a session file whose permission bits are not 0600 is treated exactly
as an absent file: its contents are never sent, the credential is freshly
derived as `base64(user:password)`, and after successful validation the
session file is rewritten with that credential and mode 0600. -/
theorem C4_badmode_discards_cache (validate : String → Bool) (user : String)
    (password : Option String) (prompted : String) (m : Nat) (c : String)
    (hm : m ≠ 0o600)
    (hok : validate (b64encode (user ++ ":" ++ effective_password password prompted)) = true) :
    check_auth validate user password prompted (some { mode := m, contents := c })
      = { outcome := .ok (b64encode (user ++ ":" ++ effective_password password prompted)),
          file := some ⟨0o600, b64encode (user ++ ":" ++ effective_password password prompted)⟩,
          attempts := [b64encode (user ++ ":" ++ effective_password password prompted)] } ∧
    check_auth validate user password prompted (some { mode := m, contents := c })
      = check_auth validate user password prompted none := by
  constructor <;>
    simp [check_auth, filtered_file, session_token, get_session, hm, hok]

/-- C4 witness: a mode-0777 cached file with stale contents is ignored and
the fresh `base64` of `u:p` is validated and written back with mode 0600. -/
theorem C4_witness :
    check_auth (fun t => t == b64encode "u:p") "u" (some "p") ""
        (some { mode := 511, contents := "stale" })
      = { outcome := .ok (b64encode ("u" ++ ":" ++ effective_password (some "p") "")),
          file := some ⟨0o600, b64encode ("u" ++ ":" ++ effective_password (some "p") "")⟩,
          attempts := [b64encode ("u" ++ ":" ++ effective_password (some "p") "")] } ∧
    check_auth (fun t => t == b64encode "u:p") "u" (some "p") ""
        (some { mode := 511, contents := "stale" })
      = check_auth (fun t => t == b64encode "u:p") "u" (some "p") "" none :=
  C4_badmode_discards_cache (fun t => t == b64encode "u:p") "u" (some "p") ""
    511 "stale" (by decide) (by decide)

/-- C6: the four worklog request shapes of `log_work`, chosen by which of
spent/remaining are present.  With a valid `spent` and absent `remaining`
the request path is the worklog base followed by `?adjustEstimate=auto` (so
it ends in `adjustEstimate=auto`) and the body carries the `timeSpent` key
with the given value and no `remainingEstimate` key; absent/absent sends the
plain worklog entry; remaining-only and both use
`?adjustEstimate=new&newEstimate=<remaining>`, with `timeSpent` in the body
exactly when spent is present. -/
theorem C6_worklog_shapes (iid ts s r : String) (c : Option String)
    (hs : time_is_valid s = true) (hr : time_is_valid r = true) :
    log_work iid c (some s) none ts
      = .sent (("rest/api/2/issue/" ++ iid ++ "/worklog") ++ "?adjustEstimate=auto")
          [("startDate", some ts), ("timeSpent", some s), ("comment", c)] ∧
    (∃ p, ("rest/api/2/issue/" ++ iid ++ "/worklog") ++ "?adjustEstimate=auto"
        = p ++ "adjustEstimate=auto") ∧
    alookup [("startDate", some ts), ("timeSpent", some s), ("comment", c)] "timeSpent"
      = some (some s) ∧
    alookup [("startDate", some ts), ("timeSpent", some s), ("comment", c)] "remainingEstimate"
      = none ∧
    log_work iid c none none ts
      = .sent ("rest/api/2/issue/" ++ iid ++ "/worklog")
          [("startDate", some ts), ("comment", c)] ∧
    log_work iid c none (some r) ts
      = .sent (("rest/api/2/issue/" ++ iid ++ "/worklog") ++ "?adjustEstimate=new&newEstimate=" ++ r)
          [("startDate", some ts), ("comment", c)] ∧
    log_work iid c (some s) (some r) ts
      = .sent (("rest/api/2/issue/" ++ iid ++ "/worklog") ++ "?adjustEstimate=new&newEstimate=" ++ r)
          [("startDate", some ts), ("timeSpent", some s), ("comment", c)] := by
  refine ⟨?_, ?_, rfl, rfl, ?_, ?_, ?_⟩
  · simp [log_work, hs]
  · refine ⟨("rest/api/2/issue/" ++ iid ++ "/worklog") ++ "?", ?_⟩
    have h2 : ("?" : String) ++ "adjustEstimate=auto" = "?adjustEstimate=auto" := rfl
    rw [String.append_assoc ("rest/api/2/issue/" ++ iid ++ "/worklog") "?"
      "adjustEstimate=auto", h2]
  · simp [log_work]
  · simp [log_work, hr]
  · simp [log_work, hs, hr]

/-- C6 witness: the spent-only shape at `spent = 2h` on issue `ISSUE-1`. -/
theorem C6_witness :
    log_work "ISSUE-1" (some "did work") (some "2h") none "2024-01-01T00:00:00.000000-0000"
      = .sent (("rest/api/2/issue/" ++ "ISSUE-1" ++ "/worklog") ++ "?adjustEstimate=auto")
          [("startDate", some "2024-01-01T00:00:00.000000-0000"), ("timeSpent", some "2h"),
           ("comment", some "did work")] :=
  (C6_worklog_shapes "ISSUE-1" "2024-01-01T00:00:00.000000-0000" "2h" "1d"
    (some "did work") (by decide) (by decide)).1

/-- Continuations of the Python match and of the strict match agree up to
the optional trailing newline admitted by the `$` anchor. -/
theorem timeRxTail_eq_exact (cs : List Char) :
    timeRxTail cs
      = (timeRxTailExact cs
          || (decide (cs.getLast? = some '\n') && timeRxTailExact cs.dropLast)) := by
  induction cs with
  | nil => rfl
  | cons c cs ih =>
    cases cs with
    | nil =>
      by_cases hd : c.isDigit <;>
        simp [timeRxTail, timeRxTailExact, dollarOk, hd]
    | cons c2 cs2 =>
      by_cases hd : c.isDigit
      · simp only [timeRxTail, timeRxTailExact, hd, if_true, List.getLast?_cons_cons,
          List.dropLast_cons₂]
        exact ih
      · cases cs2 with
        | nil =>
          simp [timeRxTail, timeRxTailExact, dollarOk, hd, Bool.and_comm]
        | cons c3 cs3 =>
          simp [timeRxTail, timeRxTailExact, dollarOk, hd, List.getLast?_cons_cons,
            List.dropLast_cons₂]

/-- The source's `time_is_valid` accepts exactly the strict `^\d+[mhdw]$`
matches plus those followed by one trailing newline. -/
theorem time_is_valid_eq_amended (s : String) :
    time_is_valid s = time_rx_amended_spec s := by
  obtain ⟨cs⟩ := s
  cases cs with
  | nil => rfl
  | cons c cs =>
    cases cs with
    | nil =>
      by_cases hd : c.isDigit <;>
        simp [time_is_valid, time_rx_search, time_rx_amended_spec, time_rx_exact,
          timeRxTail, timeRxTailExact, dollarOk, hd]
    | cons c2 cs2 =>
      cases hd : c.isDigit
      · simp [time_is_valid, time_rx_search, time_rx_amended_spec, time_rx_exact,
          timeRxTailExact, hd, List.dropLast_cons₂]
      · simp only [time_is_valid, time_rx_search, time_rx_amended_spec, time_rx_exact,
          List.getLast?_cons_cons, List.dropLast_cons₂, timeRxTailExact, hd,
          Bool.true_and, if_true]
        rw [timeRxTail_eq_exact]
        rfl

/-- C5 counterexample: the non-empty string consisting of `3d` and a
trailing newline is not a match of the regular expression `^\d+[mhdw]$` read
as a regular language, yet `time_is_valid` accepts it, because Python's `$`
anchor also matches just before a trailing newline.  So "for every other
non-empty string, validation rejects" fails at this input. -/
theorem C5_counterexample :
    time_is_valid "3d\n" = true ∧ time_rx_exact "3d\n" = false ∧ ("3d\n" : String) ≠ "" := by
  refine ⟨rfl, rfl, by decide⟩

/-- C5 amended: duration validation accepts exactly the strict matches of
`^\d+[mhdw]$` together with the strings consisting of such a match followed
by one trailing newline (Python `$` semantics); in particular every strict
match is accepted.  On any rejected `timeSpent` or `remaining` value,
`log_work` stops with a local warning: no request is built or sent and there
is no fatal exit. -/
theorem C5_duration_validation :
    (∀ s : String, time_is_valid s = time_rx_amended_spec s) ∧
    (∀ s : String, time_rx_exact s = true → time_is_valid s = true) ∧
    (∀ (s iid ts : String) (c : Option String) (rem : Option String),
      time_is_valid s = false →
      log_work iid c (some s) rem ts
        = .skipped ("Time spent has dubious format: " ++ s ++ ": no action taken")) ∧
    (∀ (r iid ts : String) (c : Option String),
      time_is_valid r = false →
      log_work iid c none (some r) ts
        = .skipped ("Time remaining has dubious format: " ++ r ++ ": no action taken")) := by
  refine ⟨time_is_valid_eq_amended, ?_, ?_, ?_⟩
  · intro s hs
    rw [time_is_valid_eq_amended, time_rx_amended_spec, hs, Bool.true_or]
  · intro s iid ts c rem hs
    simp [log_work, hs]
  · intro r iid ts c hr
    simp [log_work, hr]

/-- C5 witness: `3days` is rejected and the worklog action at `spent = 3days`
is skipped with the local warning. -/
theorem C5_witness :
    log_work "ISSUE-1" (some "w") (some "3days") none "TS"
      = .skipped ("Time spent has dubious format: " ++ "3days" ++ ": no action taken") :=
  C5_duration_validation.2.2.1 "3days" "ISSUE-1" "TS" (some "w") none (by decide)
